import Mathlib

/-!
Verification of the similarity-indexing and plagiarism-scoring engine of the
CodeGuardian repository.

The development shallowly embeds the Python core:

* `chunk_code` — `EmbeddingGenerator.chunk_code` (src/utils/embeddings.py).
  The function is modelled on the normalized token stream (the result of
  `preprocess_code` followed by `str.split()`): a `List String` of nonempty,
  whitespace-free words.  The regex-based comment stripping of
  `preprocess_code` is upstream text normalization and is not needed by any
  claim about the windowing loop.
* `add_embeddings`, `search_similar`, `calculate_plagiarism_percentage` —
  `SimilarityChecker` (src/utils/similarity.py), with the FAISS
  `IndexFlatIP` modelled as the list of stored (L2-normalized) vectors and
  exhaustive inner-product search.
* `check_plagiarism` — `PlagiarismChecker.check_plagiarism`
  (src/utils/plagiarism.py).
* `compare_repos` — the `/compare_repos` endpoint (src/backend/main.py),
  modelled from the point where each repository's chunk embeddings and
  metadata are available (GitHub fetching and the embedding model are
  upstream collaborators).

Vector arithmetic is idealized over `ℝ`; Python's `round(x, 2)` is modelled
as exact round-half-even at two decimals (`pyRound2`).
-/

namespace CodeGuardian

/-! ## Chunker (src/utils/embeddings.py, `chunk_code`) -/

/-- One element of the list returned by `chunk_code`: the dict
`{'text': ..., 'start_word': i, 'end_word': ..., 'original_text': ...}`. -/
structure Chunk where
  text : String
  start_word : Nat
  end_word : Nat
  original_text : String
deriving DecidableEq

/-- Python's `range(start, stop, step)` as a list, including the `ValueError`
raised for a zero step.  For a nonzero step the element count is
`max 0 (ceil ((stop - start) / step))`, written with integer division; the
`Int.toNat` clamp realizes the `max 0`. -/
def pyRange (start stop step : Int) : Except String (List Int) :=
  if step = 0 then
    .error "range() arg 3 must not be zero"
  else
    let count : Nat :=
      if 0 < step then ((stop - start + step - 1) / step).toNat
      else ((start - stop - step - 1) / (-step)).toNat
    .ok ((List.range count).map (fun i : Nat => start + step * (i : Int)))

/-- `' '.join(ws)`. -/
def joinWords (ws : List String) : String := String.intercalate " " ws

/-- Python truthiness of `' '.join(chunk_words).strip()`: the joined string
strips to something nonempty iff some word contains a non-whitespace
character (the separator inserted by `join` is itself whitespace). -/
def chunkKeep (ws : List String) : Bool :=
  ws.any (fun w => w.data.any (fun c => !c.isWhitespace))

/-- The body of the `for` loop of `chunk_code` at word index `i`:
`chunk_words = words[i:i + max_chunk_size]`, kept only when its joined text
is non-blank, with `end_word = min(i + max_chunk_size, len(words))`. -/
def chunkAt (words : List String) (max_chunk_size : Nat) (i : Nat) : Option Chunk :=
  let chunk_words := (words.drop i).take max_chunk_size
  if chunkKeep chunk_words then
    some { text := joinWords chunk_words
           start_word := i
           end_word := min (i + max_chunk_size) words.length
           original_text := joinWords chunk_words }
  else none

/-- `EmbeddingGenerator.chunk_code`, on the normalized token stream `words`:
`for i in range(0, len(words), max_chunk_size - overlap)` collecting the
non-blank windows.  The `range` call raises when the stride
`max_chunk_size - overlap` is zero, and yields no indices when the stride is
negative. -/
def chunk_code (words : List String) (max_chunk_size overlap : Nat) :
    Except String (List Chunk) :=
  match pyRange 0 (words.length : Int) ((max_chunk_size : Int) - (overlap : Int)) with
  | .error e => .error e
  | .ok idxs => .ok (idxs.filterMap (fun i => chunkAt words max_chunk_size i.toNat))

/-! ## Vector index and scoring (src/utils/similarity.py, `SimilarityChecker`) -/

/-- The metadata dict built at ingest time (src/utils/plagiarism.py,
`ingest_code`; src/backend/main.py, `/upload` and `/fetch_repo`). -/
structure ChunkMeta where
  submission_id : String
  chunk_id : String
  team_name : String
  submission_name : String
  language : String
  start_word : Nat
  end_word : Nat
  original_text : String
  processed_text : String
deriving DecidableEq

/-- Sum of squares of a vector's entries. -/
def sumSq (v : List ℝ) : ℝ := (v.map (fun x => x * x)).sum

/-- `faiss.normalize_L2`: divide by the Euclidean norm; a zero vector is
left unchanged (faiss skips rows whose norm is zero). -/
noncomputable def normalizeL2 (v : List ℝ) : List ℝ :=
  if sumSq v = 0 then v else v.map (fun x => x / Real.sqrt (sumSq v))

/-- Inner product of two vectors. -/
def dot (u v : List ℝ) : ℝ := (List.zipWith (fun a b => a * b) u v).sum

/-- State of a `SimilarityChecker`: the `faiss.IndexFlatIP` contents
(`vectors`, with `ntotal = vectors.length`) and the parallel Python list
`self.metadata`. -/
structure SimilarityChecker where
  dimension : Nat
  vectors : List (List ℝ)
  metadata : List ChunkMeta

/-- `SimilarityChecker.__init__`: an empty index with no metadata. -/
def emptyChecker (dimension : Nat) : SimilarityChecker :=
  { dimension := dimension, vectors := [], metadata := [] }

/-- `SimilarityChecker.add_embeddings`: early return on an empty embedding
batch; otherwise the batch is packed into an `n x d` float array and
`index.add` asserts that the row dimension equals the index dimension
(`d == self.d`; a ragged batch already fails at `np.array(...).astype`),
raising before `self.metadata.extend` runs.  On success the L2-normalized
batch is appended to the index and the metadata list extended.  The source
performs no length comparison between `embeddings` and `metadata`. -/
noncomputable def add_embeddings (s : SimilarityChecker)
    (embeddings : List (List ℝ)) (metadata : List ChunkMeta) :
    Except String SimilarityChecker :=
  match embeddings with
  | [] => .ok s
  | _ :: _ =>
    if ∀ e ∈ embeddings, e.length = s.dimension then
      .ok { s with vectors := s.vectors ++ embeddings.map normalizeL2
                   metadata := s.metadata ++ metadata }
    else .error "AssertionError: d == self.d"

/-- One search hit: the dict `{'score': ..., 'similarity_percentage': ...,
'metadata': self.metadata[idx]}`.  The metadata lookup is partial; `none`
models the `IndexError` Python would raise when the ordinal id falls
outside the metadata list. -/
structure SimResult where
  score : ℝ
  similarity_percentage : ℝ
  metadata : Option ChunkMeta

/-- `SimilarityChecker.search_similar`: empty result on an empty index;
otherwise L2-normalize the query, rank all stored vectors by inner product
(most similar first; `IndexFlatIP` is exhaustive, so with
`min(top_k, ntotal) ≤ ntotal` no `-1` placeholder ids occur), keep the top
`min(top_k, ntotal)` and attach metadata by ordinal id. -/
noncomputable def search_similar (s : SimilarityChecker)
    (query_embedding : List ℝ) (top_k : Nat) : List SimResult :=
  if s.vectors.length = 0 then []
  else
    let qn := normalizeL2 query_embedding
    let scored := s.vectors.enum.map (fun p => (dot qn p.2, p.1))
    let ranked := scored.mergeSort (fun a b => decide (b.1 ≤ a.1))
    (ranked.take (min top_k s.vectors.length)).map (fun p =>
      { score := p.1, similarity_percentage := p.1 * 100, metadata := s.metadata[p.2]? })

/-- Python's `max` over a list; call sites guard against the empty list, on
which Python `max` would raise. -/
noncomputable def pyMax : List ℝ → ℝ
  | [] => 0
  | x :: xs => xs.foldl max x

/-- Python's `min` over a list; call sites guard against the empty list. -/
noncomputable def pyMin : List ℝ → ℝ
  | [] => 0
  | x :: xs => xs.foldl min x

/-- Round to the nearest integer, ties to the even integer — the rounding
used by Python's builtin `round`. -/
noncomputable def roundHalfEven (x : ℝ) : ℤ :=
  if x - ⌊x⌋ < 1 / 2 then ⌊x⌋
  else if 1 / 2 < x - ⌊x⌋ then ⌊x⌋ + 1
  else if Even ⌊x⌋ then ⌊x⌋ else ⌊x⌋ + 1

/-- Python's `round(x, 2)`: round half-to-even at two decimal places. -/
noncomputable def pyRound2 (x : ℝ) : ℝ := (roundHalfEven (x * 100) : ℝ) / 100

/-- The dict returned by `calculate_plagiarism_percentage`.  The two
branches of the source build dicts with different key sets: the empty-index
branch has no `'flagged_chunks'` and no `'total_chunks_checked'` entry, so
those fields are `Option`s, `none` meaning the key is absent. -/
structure PlagReport where
  plagiarism_percentage : ℝ
  originality_score : ℝ
  similar_chunks : List SimResult
  flagged_chunks : Option (List SimResult)
  max_similarity : ℝ
  total_chunks_checked : Option Nat

/-- `SimilarityChecker.calculate_plagiarism_percentage`: search the top 10
neighbors; with no results return the default report; otherwise the
plagiarism percentage is the highest neighbor similarity, originality is
its complement clamped at 0, flagged chunks are the neighbors at or above
`threshold * 100`, and the top-level numbers are rounded to 2 decimals. -/
noncomputable def calculate_plagiarism_percentage (s : SimilarityChecker)
    (query_embedding : List ℝ) (threshold : ℝ) : PlagReport :=
  match search_similar s query_embedding 10 with
  | [] =>
    { plagiarism_percentage := 0
      originality_score := 100
      similar_chunks := []
      flagged_chunks := none
      max_similarity := 0
      total_chunks_checked := none }
  | r :: rs =>
    let similar_results := r :: rs
    let max_similarity := pyMax (similar_results.map (·.similarity_percentage))
    let plagiarism_percentage := max_similarity
    let originality_score := max 0 (100 - plagiarism_percentage)
    let flagged := similar_results.filter
      (fun q => decide (threshold * 100 ≤ q.similarity_percentage))
    { plagiarism_percentage := pyRound2 plagiarism_percentage
      originality_score := pyRound2 originality_score
      similar_chunks := similar_results.take 3
      flagged_chunks := some flagged
      max_similarity := pyRound2 max_similarity
      total_chunks_checked := some similar_results.length }

/-- `search_similar` as a state transformer.  The method body only reads
`self.index` and `self.metadata` and performs no assignment to `self`, so
the post-state is the pre-state. -/
noncomputable def search_similar_run (s : SimilarityChecker)
    (query_embedding : List ℝ) (top_k : Nat) :
    SimilarityChecker × List SimResult :=
  (s, search_similar s query_embedding top_k)

/-- `calculate_plagiarism_percentage` as a state transformer: it calls
`search_similar` (threading its state through) and otherwise only builds
the report dict from the results. -/
noncomputable def calculate_plagiarism_percentage_run (s : SimilarityChecker)
    (query_embedding : List ℝ) (threshold : ℝ) :
    SimilarityChecker × PlagReport :=
  let sr := search_similar_run s query_embedding 10
  (sr.1, calculate_plagiarism_percentage s query_embedding threshold)

/-- The operations a client can perform on the shared `SimilarityChecker`. -/
inductive IndexOp where
  | addOp (embeddings : List (List ℝ)) (metadata : List ChunkMeta)
  | searchOp (query_embedding : List ℝ) (top_k : Nat)
  | scoreOp (query_embedding : List ℝ) (threshold : ℝ)

/-- Whether an operation is an `add_embeddings` call. -/
def IndexOp.isAdd : IndexOp → Bool
  | .addOp _ _ => true
  | _ => false

/-- Execute one operation against the checker state.  A failing
`add_embeddings` raises its assertion before any mutation, so the
exception propagates to the caller with the checker state unchanged. -/
noncomputable def applyOp (s : SimilarityChecker) : IndexOp → SimilarityChecker
  | .addOp e m =>
    match add_embeddings s e m with
    | .ok s1 => s1
    | .error _ => s
  | .searchOp q k => (search_similar_run s q k).1
  | .scoreOp q t => (calculate_plagiarism_percentage_run s q t).1

/-- Execute a sequence of operations left to right. -/
noncomputable def runOps (s : SimilarityChecker) : List IndexOp → SimilarityChecker
  | [] => s
  | op :: rest => runOps (applyOp s op) rest

/-- An operation sequence is well-formed when every `add_embeddings` call
passes equal-length embedding and metadata lists. -/
def WellFormedOps (ops : List IndexOp) : Prop :=
  ∀ op ∈ ops, match op with
    | IndexOp.addOp e m => e.length = m.length
    | _ => True

/-! ## Embedding generation and per-document check
(src/utils/embeddings.py `generate_embeddings`;
src/utils/plagiarism.py `PlagiarismChecker.check_plagiarism`) -/

/-- `EmbeddingGenerator` state: `self.model` is the loaded
`SentenceTransformer`, abstracted as a text-to-vector function, or `None`
when loading failed. -/
structure EmbeddingGenerator where
  model : Option (String → List ℝ)

/-- `EmbeddingGenerator.generate_embeddings`: raises when no model is
loaded, otherwise encodes each chunk's `text` in order. -/
def generate_embeddings (g : EmbeddingGenerator) (code_chunks : List Chunk) :
    Except String (List (List ℝ)) :=
  match g.model with
  | none => .error "Model not loaded. Check your HuggingFace API token."
  | some f => .ok (code_chunks.map (fun c => f c.text))

/-- `PlagiarismChecker` configuration (env defaults: 500 / 100). -/
structure PlagiarismChecker where
  max_chunk_size : Nat
  chunk_overlap : Nat

/-- One entry of `chunk_results` in `PlagiarismChecker.check_plagiarism`;
`chunk_index` stands for the position `i` used in the `chunk_id` f-string. -/
structure ChunkResult where
  chunk_index : Nat
  start_word : Nat
  end_word : Nat
  text : String
  plagiarism_percentage : ℝ
  originality_score : ℝ
  similar_chunks : List SimResult
  is_flagged : Bool

/-- The dict returned by `PlagiarismChecker.check_plagiarism`.  The two
error-shaped dicts (no chunks / exception caught) share the same key set;
the success dict additionally carries `top_similar_chunks`, and only the
error dicts carry `error`, hence the `Option` fields. -/
structure CheckResult where
  success : Bool
  error : Option String
  plagiarism_percentage : ℝ
  originality_score : ℝ
  total_chunks : Nat
  flagged_chunks : Nat
  chunk_results : List ChunkResult
  top_similar_chunks : Option (List ChunkResult)

/-- The error-shaped dict of `check_plagiarism`. -/
def errorCheckResult (msg : String) : CheckResult :=
  { success := false, error := some msg, plagiarism_percentage := 0,
    originality_score := 100, total_chunks := 0, flagged_chunks := 0,
    chunk_results := [], top_similar_chunks := none }

/-- The body of the per-chunk loop of `check_plagiarism` at position
`p = (i, (chunk, embedding))`: score the chunk's embedding against the
shared index with the default 0.7 threshold and flag it when its rounded
plagiarism percentage is strictly above 70.0. -/
noncomputable def chunkResult (s : SimilarityChecker)
    (p : Nat × (Chunk × List ℝ)) : ChunkResult :=
  let chunk := p.2.1
  let embedding := p.2.2
  let pr := calculate_plagiarism_percentage s embedding (7 / 10)
  { chunk_index := p.1
    start_word := chunk.start_word
    end_word := chunk.end_word
    text := chunk.original_text
    plagiarism_percentage := pr.plagiarism_percentage
    originality_score := pr.originality_score
    similar_chunks := pr.similar_chunks
    is_flagged := decide ((70 : ℝ) < pr.plagiarism_percentage) }

/-- The success path of `check_plagiarism` once chunks and embeddings are
in hand: score every chunk, aggregate max plagiarism / min originality
(0.0 / 100.0 on an empty result list), count flagged chunks. -/
noncomputable def checkSuccess (s : SimilarityChecker)
    (chunks : List Chunk) (embeddings : List (List ℝ)) : CheckResult :=
  let all_results := (chunks.zip embeddings).enum.map (chunkResult s)
  let flagged := all_results.filter (fun r => r.is_flagged)
  let overall_plagiarism :=
    match all_results with
    | [] => (0 : ℝ)
    | _ :: _ => pyMax (all_results.map (·.plagiarism_percentage))
  let overall_originality :=
    match all_results with
    | [] => (100 : ℝ)
    | _ :: _ => pyMin (all_results.map (·.originality_score))
  { success := true
    error := none
    plagiarism_percentage := pyRound2 overall_plagiarism
    originality_score := pyRound2 overall_originality
    total_chunks := chunks.length
    flagged_chunks := flagged.length
    chunk_results := all_results
    top_similar_chunks := some (flagged.take 3) }

/-- `PlagiarismChecker.check_plagiarism` on the normalized token stream of
the submitted document: chunk, embed (both failures are caught by the
method's `try`/`except` and prefixed `Plagiarism check failed: `; an empty
chunk list yields its own error dict), score every chunk against the
shared index with the default 0.7 threshold, flag chunks strictly above
70.0, and aggregate max plagiarism / min originality. -/
noncomputable def check_plagiarism (pc : PlagiarismChecker)
    (g : EmbeddingGenerator) (s : SimilarityChecker)
    (words : List String) : CheckResult :=
  match chunk_code words pc.max_chunk_size pc.chunk_overlap with
  | .error e => errorCheckResult ("Plagiarism check failed: " ++ e)
  | .ok chunks =>
    match chunks with
    | [] => errorCheckResult "No valid code chunks found"
    | _ :: _ =>
      match generate_embeddings g chunks with
      | .error e => errorCheckResult ("Plagiarism check failed: " ++ e)
      | .ok embeddings => checkSuccess s chunks embeddings

/-! ## Multi-repository comparison (src/backend/main.py, `/compare_repos`) -/

/-- One leaderboard entry of `/compare_repos`; `submission_index` stands in
for the generated submission UUID / repo URL of corpus `i`. -/
structure LeaderboardEntry where
  submission_index : Nat
  originality_score : ℝ
  plagiarism_percentage : ℝ
  chunk_count : Nat

/-- A corpus as it stands right before the per-repository loop body stores
it: the chunk embeddings produced for the repository's files and their
parallel metadata (GitHub fetching, chunking and the embedding model are
upstream collaborators). -/
structure Corpus where
  embeddings : List (List ℝ)
  metadata : List ChunkMeta

/-- The `/compare_repos` endpoint, from the point where every repository's
embeddings are available.  The source (main.py lines 430-519) first checks
that at least two URLs were supplied; the per-repository loop then stores
each corpus's embeddings and metadata in `submissions_db` / `chunks_db` /
`repo_vectors` only — it contains no `similarity_checker.add_embeddings`
call, so the shared checker state is left exactly as it was.  Each corpus
is then scored with `calculate_plagiarism_percentage` against that
unchanged state, and the leaderboard is sorted by descending originality,
ties by ascending plagiarism. -/
noncomputable def compare_repos (corpora : List Corpus)
    (s : SimilarityChecker) :
    Except String (SimilarityChecker × List LeaderboardEntry) :=
  if corpora.length < 2 then
    .error "Provide at least two repository URLs for comparison"
  else
    let repo_vectors := corpora.map (·.embeddings)
    let leaderboard := repo_vectors.enum.map (fun p =>
      let max_sim := p.2.foldl
        (fun acc vec =>
          max acc (calculate_plagiarism_percentage s vec (7 / 10)).plagiarism_percentage)
        0
      let originality := max 0 (100 - max_sim)
      { submission_index := p.1
        originality_score := pyRound2 originality
        plagiarism_percentage := pyRound2 max_sim
        chunk_count := p.2.length : LeaderboardEntry })
    let sorted := leaderboard.mergeSort (fun a b =>
      decide (b.originality_score < a.originality_score ∨
        (a.originality_score = b.originality_score ∧
          a.plagiarism_percentage ≤ b.plagiarism_percentage)))
    .ok (s, sorted)

/-! ## Concrete inputs used by witnesses and counterexamples -/

/-- A sample metadata record. -/
def metaA : ChunkMeta :=
  { submission_id := "s1", chunk_id := "s1_chunk_0", team_name := "t",
    submission_name := "n", language := "python", start_word := 0,
    end_word := 1, original_text := "a", processed_text := "a" }

/-- A second sample metadata record. -/
def metaB : ChunkMeta :=
  { submission_id := "s2", chunk_id := "s2_chunk_0", team_name := "t",
    submission_name := "n", language := "python", start_word := 0,
    end_word := 1, original_text := "b", processed_text := "b" }

/-- An index state holding the single unit vector `[3/5, 4/5]` with its
metadata; it is the state `add_embeddings (emptyChecker 2) [[3/5, 4/5]]
[metaA]` returns, since the stored vector is two-dimensional and already
L2-normalized. -/
noncomputable def checkerOne : SimilarityChecker :=
  { dimension := 2, vectors := [[3 / 5, 4 / 5]], metadata := [metaA] }

/-- A unit-norm query vector (a 5-12-13 triangle) whose inner product with
`[3/5, 4/5]` is `63/65`, giving a similarity percentage `1260/13` that is
not representable with two decimal places. -/
noncomputable def queryB : List ℝ := [5 / 13, 12 / 13]

/-- A corpus holding one embedding with one metadata entry. -/
noncomputable def corpusC : Corpus := { embeddings := [[1, 0]], metadata := [metaA] }

/-- A plagiarism checker with the default env configuration 500 / 100. -/
def pcDefault : PlagiarismChecker := { max_chunk_size := 500, chunk_overlap := 100 }

/-- An embedding generator whose model maps every text to `[0]`. -/
noncomputable def genZero : EmbeddingGenerator := { model := some (fun _ => [0]) }

/-- An embedding generator whose model failed to load. -/
def genNone : EmbeddingGenerator := { model := none }

/-- A real number representable with two decimal places. -/
def TwoDec (x : ℝ) : Prop := ∃ n : ℤ, x = (n : ℝ) / 100

/-! ## Helper lemmas -/

theorem foldl_max_mem (x : ℝ) (xs : List ℝ) : xs.foldl max x ∈ x :: xs := by
  induction xs generalizing x with
  | nil => simp
  | cons y ys ih =>
    rw [List.foldl_cons]
    have h := ih (max x y)
    rw [List.mem_cons] at h
    rcases h with h | h
    · rw [h]
      rcases max_choice x y with hxy | hxy
      · rw [hxy]; exact List.mem_cons_self _ _
      · rw [hxy]; exact List.mem_cons_of_mem _ (List.mem_cons_self _ _)
    · exact List.mem_cons_of_mem _ (List.mem_cons_of_mem _ h)

theorem le_foldl_max (x : ℝ) (xs : List ℝ) :
    ∀ y ∈ x :: xs, y ≤ xs.foldl max x := by
  induction xs generalizing x with
  | nil =>
    intro y hy
    rw [List.mem_singleton] at hy
    simp [hy]
  | cons z zs ih =>
    intro y hy
    rw [List.mem_cons] at hy
    simp only [List.foldl_cons]
    rcases hy with rfl | hy
    · exact le_trans (le_max_left y z) (ih (max y z) _ (List.mem_cons_self _ _))
    · rw [List.mem_cons] at hy
      rcases hy with rfl | hy
      · exact le_trans (le_max_right x y) (ih (max x y) _ (List.mem_cons_self _ _))
      · exact ih (max x z) y (List.mem_cons_of_mem _ hy)

theorem foldl_min_mem (x : ℝ) (xs : List ℝ) : xs.foldl min x ∈ x :: xs := by
  induction xs generalizing x with
  | nil => simp
  | cons y ys ih =>
    rw [List.foldl_cons]
    have h := ih (min x y)
    rw [List.mem_cons] at h
    rcases h with h | h
    · rw [h]
      rcases min_choice x y with hxy | hxy
      · rw [hxy]; exact List.mem_cons_self _ _
      · rw [hxy]; exact List.mem_cons_of_mem _ (List.mem_cons_self _ _)
    · exact List.mem_cons_of_mem _ (List.mem_cons_of_mem _ h)

theorem foldl_min_le (x : ℝ) (xs : List ℝ) :
    ∀ y ∈ x :: xs, xs.foldl min x ≤ y := by
  induction xs generalizing x with
  | nil =>
    intro y hy
    rw [List.mem_singleton] at hy
    simp [hy]
  | cons z zs ih =>
    intro y hy
    rw [List.mem_cons] at hy
    simp only [List.foldl_cons]
    rcases hy with rfl | hy
    · exact le_trans (ih (min y z) _ (List.mem_cons_self _ _)) (min_le_left y z)
    · rw [List.mem_cons] at hy
      rcases hy with rfl | hy
      · exact le_trans (ih (min x y) _ (List.mem_cons_self _ _)) (min_le_right x y)
      · exact ih (min x z) y (List.mem_cons_of_mem _ hy)

theorem pyMax_mem {l : List ℝ} (h : l ≠ []) : pyMax l ∈ l := by
  cases l with
  | nil => exact absurd rfl h
  | cons x xs => exact foldl_max_mem x xs

theorem le_pyMax {l : List ℝ} {y : ℝ} (h : y ∈ l) : y ≤ pyMax l := by
  cases l with
  | nil => cases h
  | cons x xs => exact le_foldl_max x xs y h

theorem pyMin_mem {l : List ℝ} (h : l ≠ []) : pyMin l ∈ l := by
  cases l with
  | nil => exact absurd rfl h
  | cons x xs => exact foldl_min_mem x xs

theorem pyMin_le {l : List ℝ} {y : ℝ} (h : y ∈ l) : pyMin l ≤ y := by
  cases l with
  | nil => cases h
  | cons x xs => exact foldl_min_le x xs y h

theorem roundHalfEven_intCast (n : ℤ) : roundHalfEven (n : ℝ) = n := by
  simp [roundHalfEven, Int.floor_intCast]

theorem pyRound2_twoDec (x : ℝ) : TwoDec (pyRound2 x) :=
  ⟨roundHalfEven (x * 100), rfl⟩

theorem pyRound2_eq_self {x : ℝ} (h : TwoDec x) : pyRound2 x = x := by
  obtain ⟨n, rfl⟩ := h
  rw [pyRound2, div_mul_cancel₀ _ (by norm_num : (100 : ℝ) ≠ 0),
    roundHalfEven_intCast]

theorem TwoDec.max {a b : ℝ} (ha : TwoDec a) (hb : TwoDec b) :
    TwoDec (max a b) := by
  rcases max_choice a b with h | h <;> rw [h] <;> assumption

theorem TwoDec.min {a b : ℝ} (ha : TwoDec a) (hb : TwoDec b) :
    TwoDec (min a b) := by
  rcases min_choice a b with h | h <;> rw [h] <;> assumption

theorem twoDec_zero : TwoDec 0 := ⟨0, by norm_num⟩

theorem twoDec_hundred : TwoDec 100 := ⟨10000, by norm_num⟩

theorem calc_plag_twoDec (s : SimilarityChecker) (q : List ℝ) (t : ℝ) :
    TwoDec (calculate_plagiarism_percentage s q t).plagiarism_percentage := by
  rcases hs : search_similar s q 10 with _ | ⟨r, rs⟩ <;>
    simp only [calculate_plagiarism_percentage, hs]
  · exact twoDec_zero
  · exact pyRound2_twoDec _

theorem calc_orig_twoDec (s : SimilarityChecker) (q : List ℝ) (t : ℝ) :
    TwoDec (calculate_plagiarism_percentage s q t).originality_score := by
  rcases hs : search_similar s q 10 with _ | ⟨r, rs⟩ <;>
    simp only [calculate_plagiarism_percentage, hs]
  · exact twoDec_hundred
  · exact pyRound2_twoDec _

theorem chunk_code_pos_stride (words : List String) (m o : Nat) (h : o < m) :
    chunk_code words m o =
      Except.ok ((List.range ((words.length + (m - o) - 1) / (m - o))).filterMap
        (fun k => chunkAt words m ((m - o) * k))) := by
  have hs : 0 < m - o := Nat.sub_pos_of_lt h
  have hstep : (m : Int) - (o : Int) = ((m - o : Nat) : Int) := by omega
  have hne : ((m - o : Nat) : Int) ≠ 0 := by omega
  have hpos : (0 : Int) < ((m - o : Nat) : Int) := by omega
  have hcount : (((words.length : Int) - 0 + ((m - o : Nat) : Int) - 1) / ((m - o : Nat) : Int)).toNat
      = (words.length + (m - o) - 1) / (m - o) := by
    have h1 : ((words.length : Int) - 0 + ((m - o : Nat) : Int) - 1)
        = ((words.length + (m - o) - 1 : Nat) : Int) := by omega
    rw [h1, ← Int.natCast_div, Int.toNat_natCast]
  rw [chunk_code, pyRange, hstep, if_neg hne, if_pos hpos]
  simp only [hcount, List.filterMap_map]
  congr 1
  apply List.filterMap_congr
  intro k _
  have hnat : ((0 : Int) + ((m - o : Nat) : Int) * (k : Int)).toNat = (m - o) * k := by
    rw [zero_add, ← Int.natCast_mul, Int.toNat_natCast]
  simp only [Function.comp, hnat]

/-- Claim C2: the source has no guard for `overlap >= max_chunk_size`.  With
`overlap > max_chunk_size` the stride is negative, `range` is empty, and
`chunk_code` silently returns an empty chunk list instead of failing; only
the exact boundary `overlap == max_chunk_size` raises, and then only the
incidental `ValueError` from `range`'s zero step. -/
theorem chunk_code_overlap_ge_size_silent :
    chunk_code ["a", "b", "c"] 2 3 = Except.ok [] ∧
    chunk_code ["a", "b", "c"] 2 2 =
      Except.error "range() arg 3 must not be zero" := by
  exact ⟨rfl, rfl⟩

/-- Claim C8: with `0 < overlap < maxChunkSize`, every word index of the
normalized token stream is covered by the `[startWord, endWord)` range of
some produced chunk. -/
theorem chunk_code_covers (words : List String) (m o : Nat) (cs : List Chunk)
    (ho : 0 < o) (hom : o < m)
    (hw : ∀ w ∈ words, w.data.any (fun c => !c.isWhitespace) = true)
    (hcs : chunk_code words m o = Except.ok cs)
    (j : Nat) (hj : j < words.length) :
    ∃ ch ∈ cs, ch.start_word ≤ j ∧ j < ch.end_word := by
  have hs : 0 < m - o := Nat.sub_pos_of_lt hom
  rw [chunk_code_pos_stride words m o hom] at hcs
  have hcs' : cs = (List.range ((words.length + (m - o) - 1) / (m - o))).filterMap
      (fun k => chunkAt words m ((m - o) * k)) := by
    exact (Except.ok.injEq _ _).mp hcs.symm
  subst hcs'
  set s := m - o with hsdef
  set k := j / s with hkdef
  have hdm : s * k + j % s = j := Nat.div_add_mod j s
  have hmod : j % s < s := Nat.mod_lt _ hs
  have hik : s * k ≤ j := by omega
  have hjik : j < s * k + s := by omega
  have hkn : k < (words.length + s - 1) / s := by
    rw [Nat.lt_iff_add_one_le, Nat.le_div_iff_mul_le hs]
    have : (k + 1) * s = s * k + s := by ring
    omega
  have hilen : s * k < words.length := lt_of_le_of_lt hik hj
  have hdrop : words.drop (s * k) = words[s * k] :: words.drop (s * k + 1) :=
    List.drop_eq_getElem_cons hilen
  have hmem_chunk : words[s * k] ∈ (words.drop (s * k)).take m := by
    rw [hdrop]
    cases m with
    | zero => omega
    | succ m1 => exact List.mem_cons_self _ _
  have hkeep : chunkKeep ((words.drop (s * k)).take m) = true := by
    rw [chunkKeep, List.any_eq_true]
    exact ⟨words[s * k], hmem_chunk, hw _ (List.getElem_mem hilen)⟩
  refine ⟨{ text := joinWords ((words.drop (s * k)).take m), start_word := s * k,
            end_word := min (s * k + m) words.length,
            original_text := joinWords ((words.drop (s * k)).take m) }, ?_, ?_, ?_⟩
  · refine List.mem_filterMap.mpr ⟨k, List.mem_range.mpr hkn, ?_⟩
    rw [chunkAt, if_pos hkeep]
  · exact hik
  · exact lt_min (by omega) hj

/-- Witness for C8 at `words = ["a", "b"]`, `maxChunkSize = 2`,
`overlap = 1`, word index `j = 1`. -/
theorem chunk_code_covers_witness :
    0 < 1 ∧ 1 < 2 ∧
    chunk_code ["a", "b"] 2 1 =
      Except.ok [Chunk.mk "a b" 0 2 "a b", Chunk.mk "b" 1 2 "b"] ∧
    ∃ ch ∈ [Chunk.mk "a b" 0 2 "a b", Chunk.mk "b" 1 2 "b"],
      ch.start_word ≤ 1 ∧ 1 < ch.end_word :=
  ⟨Nat.one_pos, Nat.one_lt_two, rfl,
    chunk_code_covers ["a", "b"] 2 1 _ Nat.one_pos Nat.one_lt_two
      (by decide) rfl 1 (by decide)⟩

theorem search_similar_result_ids (s : SimilarityChecker) (q : List ℝ) (k : Nat) :
    ∀ r ∈ search_similar s q k,
      ∃ i, i < s.vectors.length ∧ r.metadata = s.metadata[i]? := by
  intro r hr
  by_cases h0 : s.vectors.length = 0
  · rw [search_similar, if_pos h0] at hr
    cases hr
  · rw [search_similar, if_neg h0] at hr
    simp only [List.mem_map] at hr
    obtain ⟨p, hp, rfl⟩ := hr
    have hp' := List.mem_of_mem_take hp
    have hp'' := (List.mergeSort_perm _ _).subset hp'
    simp only [List.mem_map] at hp''
    obtain ⟨⟨i, v⟩, hiv, rfl⟩ := hp''
    exact ⟨i, List.fst_lt_of_mem_enum hiv, rfl⟩

theorem search_similar_length (s : SimilarityChecker) (q : List ℝ) (k : Nat)
    (h : s.vectors.length ≠ 0) :
    (search_similar s q k).length = min k s.vectors.length := by
  simp only [search_similar, if_neg h, List.length_map, List.length_take,
    List.length_mergeSort, List.enum_length]
  omega

theorem calc_empty_report (s : SimilarityChecker) (q : List ℝ) (t : ℝ)
    (h : s.vectors = []) :
    calculate_plagiarism_percentage s q t =
      { plagiarism_percentage := 0, originality_score := 100,
        similar_chunks := [], flagged_chunks := none,
        max_similarity := 0, total_chunks_checked := none } := by
  have hs : search_similar s q 10 = [] := by
    rw [search_similar, if_pos (by rw [h]; rfl)]
  rw [calculate_plagiarism_percentage, hs]

/-- Claim C3 counterexample: on a dimension-1 checker, `add_embeddings`
accepts a call with one (dimension-correct) embedding and two metadata
entries without any `InvalidArgument`-style failure, and the resulting
state violates `len(embeddings) == len(metadata)`. -/
theorem add_embeddings_accepts_mismatched_lengths :
    ∃ st, add_embeddings (emptyChecker 1) [[1]] [metaA, metaB] = Except.ok st ∧
      st.vectors.length = 1 ∧ st.metadata.length = 2 := by
  refine ⟨{ dimension := 1, vectors := [normalizeL2 [1]],
            metadata := [metaA, metaB] }, ?_, rfl, rfl⟩
  have hdim : ∀ e ∈ [[(1 : ℝ)]], e.length = (emptyChecker 1).dimension := by
    intro e he
    rw [List.mem_singleton] at he
    subst he
    rfl
  simp only [add_embeddings, if_pos hdim]
  rfl

/-- Claim C3 (amended): `add_embeddings` performs no length validation, but
whenever every `add` call in a sequence of add/search/score operations
passes equal-length embedding and metadata lists, the vector count equals
the metadata count in every reachable state, and every search result's
ordinal id resolves to a metadata entry. -/
theorem index_metadata_invariant (s0 : SimilarityChecker) (ops : List IndexOp)
    (h0 : s0.vectors.length = s0.metadata.length)
    (hops : WellFormedOps ops) :
    (runOps s0 ops).vectors.length = (runOps s0 ops).metadata.length ∧
    ∀ q k r, r ∈ search_similar (runOps s0 ops) q k → r.metadata.isSome := by
  have hinv : (runOps s0 ops).vectors.length = (runOps s0 ops).metadata.length := by
    induction ops generalizing s0 with
    | nil => exact h0
    | cons op rest ih =>
      have hop := hops op (List.mem_cons_self _ _)
      have hrest : WellFormedOps rest := fun o ho => hops o (List.mem_cons_of_mem _ ho)
      cases op with
      | addOp e m =>
        cases e with
        | nil =>
          exact ih _ h0 hrest
        | cons v vs =>
          refine ih _ ?_ hrest
          have hop1 : (v :: vs).length = m.length := hop
          show (applyOp s0 (IndexOp.addOp (v :: vs) m)).vectors.length =
            (applyOp s0 (IndexOp.addOp (v :: vs) m)).metadata.length
          by_cases hdim : ∀ e ∈ v :: vs, e.length = s0.dimension
          · have hadd : add_embeddings s0 (v :: vs) m =
                Except.ok { s0 with vectors := s0.vectors ++ (v :: vs).map normalizeL2
                                    metadata := s0.metadata ++ m } := by
              simp only [add_embeddings, if_pos hdim]
            simp only [applyOp, hadd, List.length_append, List.length_map]
            omega
          · have hadd : add_embeddings s0 (v :: vs) m =
                Except.error "AssertionError: d == self.d" := by
              simp only [add_embeddings, if_neg hdim]
            simp only [applyOp, hadd]
            exact h0
      | searchOp q k => exact ih _ h0 hrest
      | scoreOp q t => exact ih _ h0 hrest
  refine ⟨hinv, fun q k r hr => ?_⟩
  obtain ⟨i, hi, hmeta⟩ := search_similar_result_ids _ q k r hr
  rw [hmeta, List.getElem?_eq_getElem (hinv ▸ hi)]
  rfl

/-- Witness for C3 (amended) on the one-operation sequence that adds a
single dimension-correct embedding with a single metadata entry to a fresh
dimension-1 checker. -/
theorem index_metadata_invariant_witness :
    (emptyChecker 1).vectors.length = (emptyChecker 1).metadata.length ∧
    WellFormedOps [IndexOp.addOp [[1]] [metaA]] ∧
    ((runOps (emptyChecker 1) [IndexOp.addOp [[1]] [metaA]]).vectors.length =
      (runOps (emptyChecker 1) [IndexOp.addOp [[1]] [metaA]]).metadata.length ∧
     ∀ q k r, r ∈ search_similar (runOps (emptyChecker 1) [IndexOp.addOp [[1]] [metaA]]) q k →
       r.metadata.isSome) :=
  ⟨rfl, fun op hop => by
      rw [List.mem_singleton] at hop
      subst hop
      rfl,
    index_metadata_invariant (emptyChecker 1) [IndexOp.addOp [[1]] [metaA]] rfl
      (fun op hop => by
        rw [List.mem_singleton] at hop
        subst hop
        rfl)⟩

/-- Claim C5 (amended): scoring any query against a checker whose index is
empty yields the default report: plagiarism 0.0, originality 100.0, empty
`similar_chunks`, zero `max_similarity`, and no `flagged_chunks` /
`total_chunks_checked` keys at all. -/
theorem empty_index_report (s : SimilarityChecker) (q : List ℝ) (t : ℝ)
    (h : s.vectors = []) :
    calculate_plagiarism_percentage s q t =
      { plagiarism_percentage := 0, originality_score := 100,
        similar_chunks := [], flagged_chunks := none,
        max_similarity := 0, total_chunks_checked := none } :=
  calc_empty_report s q t h

/-- Witness for C5 (amended) on a fresh checker and the query `[1]`. -/
theorem empty_index_report_witness :
    (emptyChecker 384).vectors = [] ∧
    calculate_plagiarism_percentage (emptyChecker 384) [1] (7 / 10) =
      { plagiarism_percentage := 0, originality_score := 100,
        similar_chunks := [], flagged_chunks := none,
        max_similarity := 0, total_chunks_checked := none } :=
  ⟨rfl, empty_index_report (emptyChecker 384) [1] (7 / 10) rfl⟩

/-- Claim C5 counterexample: the empty-index report of
`calculate_plagiarism_percentage` does not contain an empty
`flagged_chunks` list — the source's empty-index dict omits the
`'flagged_chunks'` key entirely. -/
theorem empty_index_report_omits_flagged_chunks :
    (calculate_plagiarism_percentage (emptyChecker 384) [1] (7 / 10)).flagged_chunks ≠
      some [] := by
  have hs : search_similar (emptyChecker 384) [1] 10 = [] := by
    rw [search_similar, if_pos (show (emptyChecker 384).vectors.length = 0 from rfl)]
  rw [calculate_plagiarism_percentage, hs]
  exact fun h => Option.noConfusion h

/-- Claim C9: scoring is side-effect free on the index.  A `search_similar`
call and a `calculate_plagiarism_percentage` call leave the checker state
untouched, and running any operation sequence ends in the same state as
running only its `add_embeddings` operations. -/
theorem scoring_is_pure (s : SimilarityChecker) (q : List ℝ) (k : Nat) (t : ℝ)
    (ops : List IndexOp) :
    (search_similar_run s q k).1 = s ∧
    (calculate_plagiarism_percentage_run s q t).1 = s ∧
    runOps s ops = runOps s (ops.filter IndexOp.isAdd) := by
  refine ⟨rfl, rfl, ?_⟩
  induction ops generalizing s with
  | nil => rfl
  | cons op rest ih =>
    cases op with
    | addOp e m =>
      simp only [runOps, List.filter_cons, IndexOp.isAdd]
      exact ih (applyOp s (IndexOp.addOp e m))
    | searchOp q1 k1 =>
      simp only [runOps, List.filter_cons, IndexOp.isAdd]
      exact ih s
    | scoreOp q1 t1 =>
      simp only [runOps, List.filter_cons, IndexOp.isAdd]
      exact ih s

theorem sumSq_nonneg (v : List ℝ) : 0 ≤ sumSq v := by
  induction v with
  | nil => simp [sumSq]
  | cons x xs ih =>
    simp only [sumSq, List.map_cons, List.sum_cons] at ih ⊢
    nlinarith [mul_self_nonneg x]

theorem sumSq_eq_zero {v : List ℝ} (h : sumSq v = 0) : ∀ x ∈ v, x = 0 := by
  induction v with
  | nil => intro x hx; cases hx
  | cons y ys ih =>
    have hys : 0 ≤ sumSq ys := sumSq_nonneg ys
    simp only [sumSq, List.map_cons, List.sum_cons] at h
    have hrw : (List.map (fun x => x * x) ys).sum = sumSq ys := rfl
    rw [hrw] at h
    have hy2 : 0 ≤ y * y := mul_self_nonneg y
    have hyy : y * y = 0 := by linarith
    have hy : y = 0 := mul_self_eq_zero.mp hyy
    intro x hx
    rw [List.mem_cons] at hx
    rcases hx with rfl | hx
    · exact hy
    · exact ih (by linarith) x hx

theorem sumSq_smul (c : ℝ) (v : List ℝ) :
    sumSq (v.map (fun x => c * x)) = c ^ 2 * sumSq v := by
  induction v with
  | nil => simp [sumSq]
  | cons x xs ih =>
    simp only [sumSq, List.map_cons, List.sum_cons] at ih ⊢
    linear_combination ih

theorem normalizeL2_smul (c : ℝ) (hc : 0 < c) (v : List ℝ) :
    normalizeL2 (v.map (fun x => c * x)) = normalizeL2 v := by
  by_cases h : sumSq v = 0
  · have hz : ∀ x ∈ v, x = 0 := sumSq_eq_zero h
    have hmap : v.map (fun x => c * x) = v := by
      rw [show v.map (fun x => c * x) = v.map id from
        List.map_congr_left (fun x hx => by rw [hz x hx]; simp), List.map_id]
    rw [hmap]
  · have hS : 0 < sumSq v := lt_of_le_of_ne (sumSq_nonneg v) (Ne.symm h)
    have h2 : sumSq (v.map (fun x => c * x)) = c ^ 2 * sumSq v := sumSq_smul c v
    have hne2 : sumSq (v.map (fun x => c * x)) ≠ 0 := by
      rw [h2]; positivity
    rw [normalizeL2, normalizeL2, if_neg hne2, if_neg h, h2,
      Real.sqrt_mul (by positivity) (sumSq v), Real.sqrt_sq hc.le, List.map_map]
    exact List.map_congr_left (fun x _ => by
      simp only [Function.comp_apply]
      rw [mul_div_mul_left x (Real.sqrt (sumSq v)) (ne_of_gt hc)])

/-- Claim C10: search is invariant under positive scaling of the query:
the query is L2-normalized before the inner-product search, so `c * v` and
`v` produce the same result sequence for every positive `c`. -/
theorem search_scale_invariant (s : SimilarityChecker) (v : List ℝ) (c : ℝ)
    (top_k : Nat) (hc : 0 < c) (_hv : ∃ x ∈ v, x ≠ 0) :
    search_similar s (v.map (fun x => c * x)) top_k = search_similar s v top_k := by
  rw [search_similar, search_similar, normalizeL2_smul c hc v]

/-- Witness for C10: doubling the query `[3, 4]` against `checkerOne`. -/
theorem search_scale_invariant_witness :
    (0 : ℝ) < 2 ∧ (∃ x ∈ [(3 : ℝ), 4], x ≠ 0) ∧
    search_similar checkerOne ([(3 : ℝ), 4].map (fun x => 2 * x)) 5 =
      search_similar checkerOne [(3 : ℝ), 4] 5 :=
  ⟨by norm_num, ⟨3, List.mem_cons_self _ _, by norm_num⟩,
    search_scale_invariant checkerOne [(3 : ℝ), 4] 2 5 (by norm_num)
      ⟨3, List.mem_cons_self _ _, by norm_num⟩⟩

/-- Claim C4 (amended): against a non-empty index, the report's
`plagiarism_percentage` is the maximum neighbor similarity percentage
rounded to two decimals, `originality_score` is `max 0 (100 - max)`
rounded to two decimals, and a neighbor is flagged iff its (unrounded)
similarity percentage is at least `threshold * 100`, inclusively. -/
theorem plagiarism_report_characterization (s : SimilarityChecker)
    (q : List ℝ) (t : ℝ) (hne : s.vectors ≠ []) :
    search_similar s q 10 ≠ [] ∧
    ∃ M ∈ (search_similar s q 10).map (·.similarity_percentage),
      (∀ p ∈ (search_similar s q 10).map (·.similarity_percentage), p ≤ M) ∧
      (calculate_plagiarism_percentage s q t).plagiarism_percentage = pyRound2 M ∧
      (calculate_plagiarism_percentage s q t).originality_score =
        pyRound2 (max 0 (100 - M)) ∧
      (calculate_plagiarism_percentage s q t).flagged_chunks =
        some ((search_similar s q 10).filter
          (fun p => decide (t * 100 ≤ p.similarity_percentage))) ∧
      ∀ r, r ∈ (search_similar s q 10).filter
          (fun p => decide (t * 100 ≤ p.similarity_percentage)) ↔
        (r ∈ search_similar s q 10 ∧ t * 100 ≤ r.similarity_percentage) := by
  have h0 : s.vectors.length ≠ 0 := fun h => hne (List.length_eq_zero.mp h)
  have hlen := search_similar_length s q 10 h0
  have hsne : search_similar s q 10 ≠ [] := by
    intro h
    rw [h] at hlen
    simp only [List.length_nil] at hlen
    omega
  rcases hs : search_similar s q 10 with _ | ⟨r0, rs⟩
  · exact absurd hs hsne
  refine ⟨List.cons_ne_nil _ _,
    pyMax ((r0 :: rs).map (·.similarity_percentage)), ?_, ?_, ?_, ?_, ?_, ?_⟩
  · exact pyMax_mem (by simp)
  · exact fun p hp => le_pyMax hp
  · simp only [calculate_plagiarism_percentage, hs]
  · simp only [calculate_plagiarism_percentage, hs]
  · simp only [calculate_plagiarism_percentage, hs]
  · intro r
    rw [List.mem_filter, decide_eq_true_eq]

/-- Witness for C4 (amended) against the one-vector index `checkerOne`. -/
theorem plagiarism_report_characterization_witness :
    checkerOne.vectors ≠ [] ∧
    (search_similar checkerOne [1, 0] 10 ≠ [] ∧
     ∃ M ∈ (search_similar checkerOne [1, 0] 10).map (·.similarity_percentage),
       (∀ p ∈ (search_similar checkerOne [1, 0] 10).map (·.similarity_percentage), p ≤ M) ∧
       (calculate_plagiarism_percentage checkerOne [1, 0] (7 / 10)).plagiarism_percentage
         = pyRound2 M ∧
       (calculate_plagiarism_percentage checkerOne [1, 0] (7 / 10)).originality_score =
         pyRound2 (max 0 (100 - M)) ∧
       (calculate_plagiarism_percentage checkerOne [1, 0] (7 / 10)).flagged_chunks =
         some ((search_similar checkerOne [1, 0] 10).filter
           (fun p => decide ((7 : ℝ) / 10 * 100 ≤ p.similarity_percentage))) ∧
       ∀ r, r ∈ (search_similar checkerOne [1, 0] 10).filter
           (fun p => decide ((7 : ℝ) / 10 * 100 ≤ p.similarity_percentage)) ↔
         (r ∈ search_similar checkerOne [1, 0] 10 ∧
           (7 : ℝ) / 10 * 100 ≤ r.similarity_percentage)) :=
  ⟨by simp [checkerOne],
    plagiarism_report_characterization checkerOne [1, 0] (7 / 10) (by simp [checkerOne])⟩

theorem normalizeL2_unit {v : List ℝ} (h : sumSq v = 1) : normalizeL2 v = v := by
  rw [normalizeL2, if_neg (by rw [h]; exact one_ne_zero), h, Real.sqrt_one]
  simp [div_one]

theorem sumSq_queryB : sumSq queryB = 1 := by
  norm_num [sumSq, queryB]

theorem search_checkerOne_queryB :
    search_similar checkerOne queryB 10 =
      [{ score := 63 / 65, similarity_percentage := 63 / 65 * 100,
         metadata := some metaA }] := by
  rw [search_similar,
    if_neg (show ¬ checkerOne.vectors.length = 0 by simp [checkerOne])]
  simp only [normalizeL2_unit sumSq_queryB, checkerOne]
  have hdot : dot queryB [3 / 5, 4 / 5] = 63 / 65 := by
    norm_num [dot, queryB]
  have henum : ([[(3 : ℝ) / 5, 4 / 5]]).enum = [(0, [(3 : ℝ) / 5, 4 / 5])] := rfl
  rw [henum]
  simp only [List.map_cons, List.map_nil, hdot]
  have hms : ([((63 : ℝ) / 65, 0)]).mergeSort (fun a b => decide (b.1 ≤ a.1)) =
      [((63 : ℝ) / 65, 0)] :=
    List.Perm.eq_singleton (List.mergeSort_perm _ _)
  rw [hms]
  norm_num

theorem pyRound2_counterexample_value :
    pyRound2 ((63 : ℝ) / 65 * 100) = 9692 / 100 := by
  have h1 : (63 : ℝ) / 65 * 100 * 100 = 126000 / 13 := by norm_num
  have hfl : ⌊(126000 : ℝ) / 13⌋ = 9692 := by
    rw [Int.floor_eq_iff]
    norm_num
  rw [pyRound2, h1, roundHalfEven, hfl]
  rw [if_pos (by norm_num : (126000 : ℝ) / 13 - (9692 : ℤ) < 1 / 2)]
  norm_num

/-- Claim C4 counterexample: the sole neighbor returned for `queryB`
against `checkerOne` has similarity percentage `6300/65 = 96.923...`, but
the report's `plagiarism_percentage` is the rounded `96.92`, so it does not
equal the maximum similarity percentage over the returned neighbors. -/
theorem plagiarism_percentage_is_rounded :
    ((search_similar checkerOne queryB 10).map (·.similarity_percentage) =
      [63 / 65 * 100]) ∧
    (calculate_plagiarism_percentage checkerOne queryB (7 / 10)).plagiarism_percentage ≠
      63 / 65 * 100 := by
  constructor
  · rw [search_checkerOne_queryB]
    rfl
  · simp only [calculate_plagiarism_percentage, search_checkerOne_queryB]
    have hpm : pyMax (([SimResult.mk (63 / 65) (63 / 65 * 100) (some metaA)]).map
        (·.similarity_percentage)) = (63 : ℝ) / 65 * 100 := rfl
    rw [hpm, pyRound2_counterexample_value]
    norm_num

/-- Claim C6: for a submitted document with at least one chunk and a loaded
model, the per-document check succeeds, `overallPlagiarism` equals the
maximum of the chunks' plagiarism percentages, `overallOriginality` equals
the minimum of the chunks' originality scores, and a chunk is flagged iff
its own plagiarism percentage is strictly greater than 70.0. -/
theorem check_plagiarism_aggregation (pc : PlagiarismChecker)
    (g : EmbeddingGenerator) (s : SimilarityChecker) (words : List String)
    (f : String → List ℝ) (cs : List Chunk)
    (hg : g.model = some f)
    (hcs : chunk_code words pc.max_chunk_size pc.chunk_overlap = Except.ok cs)
    (hne : cs ≠ []) :
    (check_plagiarism pc g s words).success = true ∧
    (check_plagiarism pc g s words).plagiarism_percentage ∈
      (check_plagiarism pc g s words).chunk_results.map (·.plagiarism_percentage) ∧
    (∀ p ∈ (check_plagiarism pc g s words).chunk_results.map (·.plagiarism_percentage),
      p ≤ (check_plagiarism pc g s words).plagiarism_percentage) ∧
    (check_plagiarism pc g s words).originality_score ∈
      (check_plagiarism pc g s words).chunk_results.map (·.originality_score) ∧
    (∀ p ∈ (check_plagiarism pc g s words).chunk_results.map (·.originality_score),
      (check_plagiarism pc g s words).originality_score ≤ p) ∧
    ∀ cr ∈ (check_plagiarism pc g s words).chunk_results,
      (cr.is_flagged = true ↔ 70 < cr.plagiarism_percentage) := by
  rcases cs with _ | ⟨c0, crest⟩
  · exact absurd rfl hne
  have hck : check_plagiarism pc g s words =
      checkSuccess s (c0 :: crest) ((c0 :: crest).map (fun c => f c.text)) := by
    unfold check_plagiarism
    rw [hcs]
    simp only [generate_embeddings, hg]
  rw [hck]
  have hres : (checkSuccess s (c0 :: crest) ((c0 :: crest).map (fun c => f c.text))).chunk_results =
      (((c0 :: crest).zip ((c0 :: crest).map (fun c => f c.text))).enum).map (chunkResult s) := rfl
  have hLc : (((c0 :: crest).zip ((c0 :: crest).map (fun c => f c.text))).enum).map (chunkResult s) =
      chunkResult s (0, (c0, f c0.text)) ::
        ((crest.zip (crest.map (fun c => f c.text))).enumFrom 1).map (chunkResult s) := rfl
  have hplag : (checkSuccess s (c0 :: crest) ((c0 :: crest).map (fun c => f c.text))).plagiarism_percentage =
      pyRound2 (pyMax (((((c0 :: crest).zip ((c0 :: crest).map (fun c => f c.text))).enum).map
        (chunkResult s)).map (·.plagiarism_percentage))) := rfl
  have horig : (checkSuccess s (c0 :: crest) ((c0 :: crest).map (fun c => f c.text))).originality_score =
      pyRound2 (pyMin (((((c0 :: crest).zip ((c0 :: crest).map (fun c => f c.text))).enum).map
        (chunkResult s)).map (·.originality_score))) := rfl
  set L := (((c0 :: crest).zip ((c0 :: crest).map (fun c => f c.text))).enum).map
      (chunkResult s) with hL
  have hLne : L ≠ [] := by
    rw [hLc]
    exact List.cons_ne_nil _ _
  have hPtd : ∀ x ∈ L.map (·.plagiarism_percentage), TwoDec x := by
    intro x hx
    simp only [List.mem_map] at hx
    obtain ⟨cr, hcr, rfl⟩ := hx
    rw [hL] at hcr
    simp only [List.mem_map] at hcr
    obtain ⟨p, hp, rfl⟩ := hcr
    exact calc_plag_twoDec s p.2.2 (7 / 10)
  have hOtd : ∀ x ∈ L.map (·.originality_score), TwoDec x := by
    intro x hx
    simp only [List.mem_map] at hx
    obtain ⟨cr, hcr, rfl⟩ := hx
    rw [hL] at hcr
    simp only [List.mem_map] at hcr
    obtain ⟨p, hp, rfl⟩ := hcr
    exact calc_orig_twoDec s p.2.2 (7 / 10)
  have hmapP : L.map (·.plagiarism_percentage) ≠ [] := by
    intro h
    exact hLne (List.map_eq_nil_iff.mp h)
  have hmapO : L.map (·.originality_score) ≠ [] := by
    intro h
    exact hLne (List.map_eq_nil_iff.mp h)
  have hPmem := pyMax_mem hmapP
  have hOmem := pyMin_mem hmapO
  refine ⟨rfl, ?_, ?_, ?_, ?_, ?_⟩
  · rw [hres, hplag, pyRound2_eq_self (hPtd _ hPmem)]
    exact hPmem
  · intro p hp
    rw [hres] at hp
    rw [hplag, pyRound2_eq_self (hPtd _ hPmem)]
    exact le_pyMax hp
  · rw [hres, horig, pyRound2_eq_self (hOtd _ hOmem)]
    exact hOmem
  · intro p hp
    rw [hres] at hp
    rw [horig, pyRound2_eq_self (hOtd _ hOmem)]
    exact pyMin_le hp
  · intro cr hcr
    rw [hres, hL] at hcr
    simp only [List.mem_map] at hcr
    obtain ⟨p, hp, rfl⟩ := hcr
    show decide ((70 : ℝ) <
      (calculate_plagiarism_percentage s p.2.2 (7 / 10)).plagiarism_percentage) = true ↔ _
    rw [decide_eq_true_eq]
    exact Iff.rfl

/-- Witness for C6 on the one-word document `["a"]` with the constant
embedding model and a fresh index. -/
theorem check_plagiarism_aggregation_witness :
    (check_plagiarism pcDefault genZero (emptyChecker 384) ["a"]).success = true ∧
    (check_plagiarism pcDefault genZero (emptyChecker 384) ["a"]).plagiarism_percentage ∈
      (check_plagiarism pcDefault genZero (emptyChecker 384) ["a"]).chunk_results.map
        (·.plagiarism_percentage) ∧
    (∀ p ∈ (check_plagiarism pcDefault genZero (emptyChecker 384) ["a"]).chunk_results.map
        (·.plagiarism_percentage),
      p ≤ (check_plagiarism pcDefault genZero (emptyChecker 384) ["a"]).plagiarism_percentage) ∧
    (check_plagiarism pcDefault genZero (emptyChecker 384) ["a"]).originality_score ∈
      (check_plagiarism pcDefault genZero (emptyChecker 384) ["a"]).chunk_results.map
        (·.originality_score) ∧
    (∀ p ∈ (check_plagiarism pcDefault genZero (emptyChecker 384) ["a"]).chunk_results.map
        (·.originality_score),
      (check_plagiarism pcDefault genZero (emptyChecker 384) ["a"]).originality_score ≤ p) ∧
    ∀ cr ∈ (check_plagiarism pcDefault genZero (emptyChecker 384) ["a"]).chunk_results,
      (cr.is_flagged = true ↔ 70 < cr.plagiarism_percentage) :=
  check_plagiarism_aggregation pcDefault genZero (emptyChecker 384) ["a"]
    (fun _ => [0]) [Chunk.mk "a" 0 1 "a"] rfl rfl (List.cons_ne_nil _ _)

/-- Claim C7: when the embedding model is unavailable, the per-document
check reports the failure (success false, the model error surfaced
verbatim inside the error message) and produces no chunk scores at all —
never a normal-looking score report. -/
theorem model_unavailable_reported (pc : PlagiarismChecker)
    (g : EmbeddingGenerator) (s : SimilarityChecker) (words : List String)
    (cs : List Chunk)
    (hg : g.model = none)
    (hcs : chunk_code words pc.max_chunk_size pc.chunk_overlap = Except.ok cs)
    (hne : cs ≠ []) :
    check_plagiarism pc g s words =
      errorCheckResult
        "Plagiarism check failed: Model not loaded. Check your HuggingFace API token." ∧
    (check_plagiarism pc g s words).success = false ∧
    (check_plagiarism pc g s words).error =
      some "Plagiarism check failed: Model not loaded. Check your HuggingFace API token." ∧
    (check_plagiarism pc g s words).chunk_results = [] := by
  rcases cs with _ | ⟨c0, crest⟩
  · exact absurd rfl hne
  have hck : check_plagiarism pc g s words =
      errorCheckResult ("Plagiarism check failed: " ++
        "Model not loaded. Check your HuggingFace API token.") := by
    unfold check_plagiarism
    rw [hcs]
    simp only [generate_embeddings, hg]
  rw [hck]
  exact ⟨rfl, rfl, rfl, rfl⟩

/-- Witness for C7 on the one-word document `["a"]` with a failed model. -/
theorem model_unavailable_reported_witness :
    check_plagiarism pcDefault genNone (emptyChecker 384) ["a"] =
      errorCheckResult
        "Plagiarism check failed: Model not loaded. Check your HuggingFace API token." ∧
    (check_plagiarism pcDefault genNone (emptyChecker 384) ["a"]).success = false ∧
    (check_plagiarism pcDefault genNone (emptyChecker 384) ["a"]).error =
      some "Plagiarism check failed: Model not loaded. Check your HuggingFace API token." ∧
    (check_plagiarism pcDefault genNone (emptyChecker 384) ["a"]).chunk_results = [] :=
  model_unavailable_reported pcDefault genNone (emptyChecker 384) ["a"]
    [Chunk.mk "a" 0 1 "a"] rfl rfl (List.cons_ne_nil _ _)

theorem foldl_max_calc_zero (s : SimilarityChecker) (hs : s.vectors = [])
    (l : List (List ℝ)) :
    l.foldl (fun acc vec =>
      max acc (calculate_plagiarism_percentage s vec (7 / 10)).plagiarism_percentage)
      0 = 0 := by
  induction l with
  | nil => rfl
  | cons v vs ih =>
    simp only [List.foldl_cons, calc_empty_report s v (7 / 10) hs]
    simpa using ih

/-- Claim C1: the `/compare_repos` endpoint never ingests any corpus into
the shared `VectorIndex`.  Its per-repository loop stores embeddings only
in its local collections and calls no `add_embeddings`, so the comparison
returns with the checker state exactly as supplied; starting from an empty
index every corpus is scored against an empty index and receives
plagiarism 0.0 / originality 100.0. -/
theorem compare_repos_no_ingestion (corpora : List Corpus) (s : SimilarityChecker)
    (h2 : 2 ≤ corpora.length) :
    ∃ lb, compare_repos corpora s = Except.ok (s, lb) ∧
      (s.vectors = [] → ∀ entry ∈ lb, entry.plagiarism_percentage = 0 ∧
        entry.originality_score = 100) := by
  rw [compare_repos, if_neg (by omega)]
  refine ⟨_, rfl, ?_⟩
  intro hs entry hentry
  have hmem := (List.mergeSort_perm _ _).subset hentry
  simp only [List.mem_map] at hmem
  obtain ⟨p, hp, rfl⟩ := hmem
  have hms : p.2.foldl (fun acc vec =>
      max acc (calculate_plagiarism_percentage s vec (7 / 10)).plagiarism_percentage)
      0 = 0 := foldl_max_calc_zero s hs p.2
  constructor
  · show pyRound2 (p.2.foldl (fun acc vec =>
      max acc (calculate_plagiarism_percentage s vec (7 / 10)).plagiarism_percentage)
      0) = 0
    rw [hms]
    exact pyRound2_eq_self twoDec_zero
  · show pyRound2 (max 0 (100 - p.2.foldl (fun acc vec =>
      max acc (calculate_plagiarism_percentage s vec (7 / 10)).plagiarism_percentage)
      0)) = 100
    rw [hms]
    rw [show max (0 : ℝ) (100 - 0) = 100 by norm_num]
    exact pyRound2_eq_self twoDec_hundred

/-- Witness for C1: comparing two identical one-chunk corpora starting
from a fresh index leaves the index empty and, by the theorem, scores both
as perfectly original. -/
theorem compare_repos_no_ingestion_witness :
    2 ≤ [corpusC, corpusC].length ∧
    ∃ lb, compare_repos [corpusC, corpusC] (emptyChecker 384) =
        Except.ok (emptyChecker 384, lb) ∧
      ((emptyChecker 384).vectors = [] → ∀ entry ∈ lb,
        entry.plagiarism_percentage = 0 ∧ entry.originality_score = 100) :=
  ⟨by norm_num, compare_repos_no_ingestion [corpusC, corpusC] (emptyChecker 384)
    (by norm_num)⟩

end CodeGuardian
